import Mathlib

/-!
Shallow embedding of `src/tech-crunch.py` (class `TechCrunchScraper`):
the fetch → parse → dedup-persist pipeline.

Modelling conventions:
* `fetch_page` is driven by a *script* `Nat → FetchEvent` giving, for each
  successive HTTP GET issued by the retry loop, either the server's response
  (status code, body, optional `Retry-After` header) or a network-level
  exception (`aiohttp.ClientError`).  Sleeps (`asyncio.sleep`) are logged in
  order in a `List Sleep`.  An uncaught Python exception is an `Except.error`.
* HTML pages handed to `parse_articles` are modelled structurally: a page is
  a list of `Block`s (the `article.post-block` elements), each holding the
  optional sub-elements the code queries with `select_one`.
* The SQLite table `articles` is a `List Row` in insertion (= `id`) order;
  `INSERT OR IGNORE` under the `UNIQUE` constraint on `url` becomes
  `insertOrIgnore`.
* The driver `scrape` is parametrised by the per-page fetch result
  (`Nat → String`, the string `fetch_page` returned for that page's URL),
  the parser (`String → List Article`, i.e. `parse_articles` composed with
  the HTML decoding) and the store clock (`Nat → String`, the
  `datetime.utcnow().isoformat()` value taken in the `save_articles` call of
  that page).  It records which pages were fetched, parsed and stored.
-/

namespace TechCrunch

instance {ε α : Type} [DecidableEq ε] [DecidableEq α] : DecidableEq (Except ε α) := fun x y =>
  match x, y with
  | Except.ok a, Except.ok b =>
    if h : a = b then isTrue (by rw [h]) else isFalse (fun hc => by cases hc; exact h rfl)
  | Except.error a, Except.error b =>
    if h : a = b then isTrue (by rw [h]) else isFalse (fun hc => by cases hc; exact h rfl)
  | Except.ok _, Except.error _ => isFalse (fun hc => Except.noConfusion hc)
  | Except.error _, Except.ok _ => isFalse (fun hc => Except.noConfusion hc)

/-- Python exceptions that escape the modelled code. `valueError` is what
`int(...)` raises on an unparseable string (it is not an
`aiohttp.ClientError`, so `fetch_page`'s `except` clause does not catch it). -/
inductive PyErr where
  | valueError
deriving DecidableEq

/-- One HTTP response as seen by `fetch_page`: `response.status`,
`await response.text()`, and `response.headers.get('Retry-After')`. -/
structure HttpResponse where
  status : Nat
  body : String
  retryAfter : Option String
deriving DecidableEq

/-- What one `session.get` call produces: a response, or an
`aiohttp.ClientError` (timeout, connection failure, ...). -/
inductive FetchEvent where
  | response (r : HttpResponse)
  | clientError
deriving DecidableEq

/-- A logged `asyncio.sleep`: either the server-directed `Retry-After` wait
of the 429 branch, or the exponential-backoff wait `2 ^ attempt` of the
network-error branch. -/
inductive Sleep where
  | rateWait (seconds : Int)
  | backoff (seconds : Nat)
deriving DecidableEq

/-- Digit run evaluated in base 10; `none` on a non-digit. -/
def digitsVal : List Char → Nat → Option Nat
  | [], acc => some acc
  | ch :: rest, acc =>
    if ch.isDigit then digitsVal rest (acc * 10 + (ch.toNat - 48)) else none

/-- A non-empty all-digit run, else `none`. -/
def digitsNonempty : List Char → Option Nat
  | [] => none
  | l => digitsVal l 0

/-- Model of Python's `int(str)` on plain decimal strings: strips
whitespace, allows one leading sign, then requires a non-empty digit run;
anything else raises `ValueError` (here: `none`).  (Underscore digit
grouping and non-ASCII digits are outside the model's scope.) -/
def pyIntL (l : List Char) : Option Int :=
  let t := ((l.dropWhile Char.isWhitespace).reverse.dropWhile Char.isWhitespace).reverse
  match t with
  | [] => none
  | '-' :: rest => (digitsNonempty rest).map (fun n => -(n : Int))
  | '+' :: rest => (digitsNonempty rest).map (fun n => (n : Int))
  | _ => (digitsNonempty t).map (fun n => (n : Int))

def pyInt (s : String) : Option Int := pyIntL s.toList

/-- `int(response.headers.get('Retry-After', 5))`: the default `5` applies
only when the header is absent; a present but unparseable value raises
`ValueError`. -/
def retryAfterSeconds : Option String → Except PyErr Int
  | none => Except.ok 5
  | some s =>
    match pyInt s with
    | some n => Except.ok n
    | none => Except.error PyErr.valueError

/-- The retry loop of `fetch_page` (lines 56-73).  `attempt` is the loop
variable of `for attempt in range(max_retries)`, `fuel` the number of
iterations still to run (`max_retries - attempt`), `sleeps` the log of
`asyncio.sleep` calls so far.  Falling out of the loop returns `""`. -/
def fetchPageAux (script : Nat → FetchEvent) (max_retries : Nat) :
    Nat → Nat → List Sleep → Except PyErr (String × List Sleep)
  | _, 0, sleeps => Except.ok ("", sleeps)
  | attempt, fuel + 1, sleeps =>
    match script attempt with
    | FetchEvent.response r =>
      if r.status = 200 then Except.ok (r.body, sleeps)
      else if r.status = 429 then
        match retryAfterSeconds r.retryAfter with
        | Except.ok n =>
          fetchPageAux script max_retries (attempt + 1) fuel (sleeps ++ [Sleep.rateWait n])
        | Except.error e => Except.error e
      else Except.ok ("", sleeps)
    | FetchEvent.clientError =>
      if attempt < max_retries - 1 then
        fetchPageAux script max_retries (attempt + 1) fuel (sleeps ++ [Sleep.backoff (2 ^ attempt)])
      else
        fetchPageAux script max_retries (attempt + 1) fuel sleeps

/-- `fetch_page` (lines 53-73).  In the source `max_retries` is the local
variable set to `3`; it is kept as a parameter so the retry bound can be
stated for every value. -/
def fetch_page (script : Nat → FetchEvent) (max_retries : Nat := 3) :
    Except PyErr (String × List Sleep) :=
  fetchPageAux script max_retries 0 max_retries []

/-- The string the caller receives from `fetch_page` (`none` when the call
raised). -/
def resultBody : Except PyErr (String × List Sleep) → Option String
  | Except.ok (s, _) => some s
  | Except.error _ => none

/-! ## URL resolution (`urllib.parse.urljoin`) -/

/-- Does the character list contain the `"://"` scheme separator? -/
def hasSchemeL : List Char → Bool
  | ':' :: '/' :: '/' :: _ => true
  | _ :: rest => hasSchemeL rest
  | [] => false

/-- Scheme and authority of an absolute URL: everything through `"://"`
plus the host up to the next `'/'`. -/
def schemeHostL : List Char → List Char
  | ':' :: '/' :: '/' :: rest => ':' :: '/' :: '/' :: rest.takeWhile (fun ch => ch != '/')
  | ch :: rest => ch :: schemeHostL rest
  | [] => []

/-- Everything up to and including the last `'/'`. -/
def dropLastSegmentL (l : List Char) : List Char :=
  (l.reverse.dropWhile (fun ch => ch != '/')).reverse

/-- Model of `urllib.parse.urljoin(base, url)` for the reference forms the
scraper passes it: an already-absolute `url` is returned unchanged, a
root-relative `url` is attached to `base`'s scheme and host, and a plain
relative `url` replaces `base`'s last path segment.  (Dot-segment
normalisation, query/fragment references and network-path references are
outside the model's scope; the code never produces them here.) -/
def urljoin (base url : String) : String :=
  if url = "" then base
  else if hasSchemeL url.toList then url
  else if url.toList.headD ' ' = '/' then String.mk (schemeHostL base.toList ++ url.toList)
  else String.mk (dropLastSegmentL base.toList ++ url.toList)

/-! ## Record Extractor (`parse_articles`, lines 75-114) -/

/-- The `h2.post-block__title a` element of a block: its
`get_text(strip=True)` and its `href` attribute (if any). -/
structure TitleElem where
  text : String
  href : Option String
deriving DecidableEq

/-- The `time` element of a block: its `datetime` attribute (if any;
`date_elem['datetime']` raises `KeyError` when it is absent). -/
structure DateElem where
  datetime : Option String
deriving DecidableEq

/-- One `article.post-block` element with the three sub-elements the code
queries: title link, time, excerpt (`excerptElem` is the
`get_text(strip=True)` of `div.post-block__content` when present). -/
structure Block where
  titleElem : Option TitleElem
  dateElem : Option DateElem
  excerptElem : Option String
deriving DecidableEq

/-- A record built by `parse_articles` (a Python dict with these keys). -/
structure Article where
  title : String
  url : String
  date_published : String
  excerpt : String
deriving DecidableEq

/-- The per-block body of `parse_articles` (lines 85-108).  `none` means the
block was skipped: either by the `if title and url` guard, or by the
`except ... continue` when `date_elem['datetime']` raises `KeyError`.
Note the `href` truthiness check: an empty-string `href` is falsy, so the
`url` stays `""`.  The resolution base is `self.base_url`. -/
def parseBlock (base_url : String) (b : Block) : Option Article :=
  let title := match b.titleElem with
    | some t => t.text
    | none => ""
  let url := match b.titleElem with
    | some t =>
      match t.href with
      | some h => if h = "" then "" else urljoin base_url h
      | none => ""
    | none => ""
  let dateRes : Option String := match b.dateElem with
    | some d => d.datetime
    | none => some ""
  match dateRes with
  | none => none
  | some date_published =>
    let excerpt := (b.excerptElem).getD ""
    if title ≠ "" ∧ url ≠ "" then
      some { title := title, url := url, date_published := date_published, excerpt := excerpt }
    else none

/-- `parse_articles` (lines 75-114): map `parseBlock` over the page's
blocks, keeping the surviving records in order. -/
def parse_articles (base_url : String) (blocks : List Block) : List Article :=
  blocks.filterMap (parseBlock base_url)

/-! ## Deduplicating Store (`setup_database` / `save_articles`) -/

/-- One row of the `articles` table (lines 37-46); the surrogate `id` is the
row's position in the list. -/
structure Row where
  title : String
  url : String
  date_published : String
  excerpt : String
  scraped_at : String
deriving DecidableEq

/-- Does a row with this `url` exist?  (The `UNIQUE` constraint check.) -/
def urlExists (db : List Row) (u : String) : Bool :=
  db.any (fun r => r.url == u)

/-- One `INSERT OR IGNORE` (lines 125-134): if the `url` is already
present the statement is ignored and the table is unchanged; otherwise the
new row is appended with the given `scraped_at` stamp. -/
def insertOrIgnore (db : List Row) (a : Article) (scraped_at : String) : List Row :=
  if urlExists db a.url then db
  else db ++ [{ title := a.title, url := a.url, date_published := a.date_published,
                excerpt := a.excerpt, scraped_at := scraped_at }]

/-- `save_articles` (lines 116-142): one `scraped_at` stamp is taken for
the whole call, then each article is inserted with `INSERT OR IGNORE`. -/
def save_articles (db : List Row) (articles : List Article) (scraped_at : String) : List Row :=
  articles.foldl (fun d a => insertOrIgnore d a scraped_at) db

/-! ## Pagination Driver (`scrape`, lines 144-161) -/

/-- The URL requested for a page (line 148):
`f"{base_url}page/{page}/" if page > 1 else base_url`. -/
def pageUrl (base_url : String) (page : Nat) : String :=
  if page > 1 then base_url ++ "page/" ++ toString page ++ "/" else base_url

/-- Observable trace of one `scrape` run: which pages were fetched, which
had their HTML parsed, which had articles saved, and the final table. -/
structure CrawlTrace where
  fetchedPages : List Nat
  parsedPages : List Nat
  storedPages : List Nat
  db : List Row
deriving DecidableEq

/-- One iteration of the `for page in range(1, max_pages + 1)` loop
(lines 147-161): fetch; on empty HTML log and `continue` (skip the page);
otherwise parse, and save only when the article list is non-empty. -/
def scrapeStep (fetchHtml : Nat → String) (parseOf : String → List Article)
    (clock : Nat → String) (t : CrawlTrace) (page : Nat) : CrawlTrace :=
  if fetchHtml page = "" then
    { t with fetchedPages := t.fetchedPages ++ [page] }
  else if (parseOf (fetchHtml page)).isEmpty then
    { t with fetchedPages := t.fetchedPages ++ [page],
             parsedPages := t.parsedPages ++ [page] }
  else
    { t with fetchedPages := t.fetchedPages ++ [page],
             parsedPages := t.parsedPages ++ [page],
             storedPages := t.storedPages ++ [page],
             db := save_articles t.db (parseOf (fetchHtml page)) (clock page) }

/-- The loop of `scrape` over an explicit page list. -/
def scrapeGo (fetchHtml : Nat → String) (parseOf : String → List Article)
    (clock : Nat → String) (pages : List Nat) (t : CrawlTrace) : CrawlTrace :=
  pages.foldl (scrapeStep fetchHtml parseOf clock) t

/-- `scrape` (lines 144-161): pages `1 .. max_pages` in order, starting
from the store contents `db0`. -/
def scrape (fetchHtml : Nat → String) (parseOf : String → List Article)
    (clock : Nat → String) (max_pages : Nat) (db0 : List Row) : CrawlTrace :=
  scrapeGo fetchHtml parseOf clock (List.range' 1 max_pages)
    { fetchedPages := [], parsedPages := [], storedPages := [], db := db0 }

/-! ## Fetcher lemmas -/

/-- Fetch target that fails with a network-level error on its first `N`
GETs and then serves `body` with status 200. -/
def failNScript (N : Nat) (body : String) : Nat → FetchEvent :=
  fun i => if i < N then FetchEvent.clientError else FetchEvent.response ⟨200, body, none⟩

lemma backoffRange_succ (a k : Nat) :
    (List.range (k + 1)).map (fun j => Sleep.backoff (2 ^ (a + j)))
      = Sleep.backoff (2 ^ a)
        :: (List.range k).map (fun j => Sleep.backoff (2 ^ (a + 1 + j))) := by
  rw [List.range_succ_eq_map, List.map_cons, List.map_map]
  refine congrArg₂ _ (by simp) ?_
  refine List.map_congr_left ?_
  intro j _
  have h : a + Nat.succ j = a + 1 + j := by omega
  simp [Function.comp, h]

lemma fetchPageAux_failN_success (N : Nat) (body : String) :
    ∀ (k a : Nat) (sleeps : List Sleep), a + k = N →
    fetchPageAux (failNScript N body) (N + 1) a (k + 1) sleeps
      = Except.ok (body, sleeps ++ (List.range k).map (fun j => Sleep.backoff (2 ^ (a + j)))) := by
  intro k
  induction k with
  | zero =>
    intro a sleeps ha
    subst ha
    simp [fetchPageAux, failNScript]
  | succ k ih =>
    intro a sleeps ha
    have hlt : a < N := by omega
    have hbr : a < (N + 1) - 1 := by omega
    rw [fetchPageAux]
    simp only [failNScript, if_pos hlt, if_pos hbr]
    rw [ih (a + 1) (sleeps ++ [Sleep.backoff (2 ^ a)]) (by omega)]
    rw [backoffRange_succ]
    simp [List.append_assoc]

lemma fetchPageAux_failN_exhaust (N : Nat) (body : String) :
    ∀ (k a : Nat) (sleeps : List Sleep), a + k = N →
    fetchPageAux (failNScript N body) N a k sleeps
      = Except.ok ("", sleeps ++ (List.range (k - 1)).map (fun j => Sleep.backoff (2 ^ (a + j)))) := by
  intro k
  induction k with
  | zero =>
    intro a sleeps _
    simp [fetchPageAux]
  | succ k ih =>
    intro a sleeps ha
    have hlt : a < N := by omega
    rw [fetchPageAux]
    simp only [failNScript, if_pos hlt]
    rcases Nat.eq_zero_or_pos k with hk | hk
    · subst hk
      have hbr : ¬ a < N - 1 := by omega
      simp only [if_neg hbr]
      rw [ih (a + 1) sleeps (by omega)]
      simp
    · have hbr : a < N - 1 := by omega
      simp only [if_pos hbr]
      rw [ih (a + 1) (sleeps ++ [Sleep.backoff (2 ^ a)]) (by omega)]
      rw [show k + 1 - 1 = (k - 1) + 1 from by omega, backoffRange_succ]
      simp [List.append_assoc]

lemma fetchPageAux_clientError_body (mr : Nat) :
    ∀ (fuel attempt : Nat) (sleeps : List Sleep),
    resultBody (fetchPageAux (fun _ => FetchEvent.clientError) mr attempt fuel sleeps) = some "" := by
  intro fuel
  induction fuel with
  | zero => intro attempt sleeps; simp [fetchPageAux, resultBody]
  | succ fuel ih =>
    intro attempt sleeps
    rw [fetchPageAux]
    by_cases h : attempt < mr - 1
    · simp only [if_pos h]
      exact ih (attempt + 1) (sleeps ++ [Sleep.backoff (2 ^ attempt)])
    · simp only [if_neg h]
      exact ih (attempt + 1) sleeps

lemma fetchPageAux_rateLimited_body (mr : Nat) (bdy : String) :
    ∀ (fuel attempt : Nat) (sleeps : List Sleep),
    resultBody (fetchPageAux (fun _ => FetchEvent.response ⟨429, bdy, none⟩) mr attempt fuel sleeps)
      = some "" := by
  intro fuel
  induction fuel with
  | zero => intro attempt sleeps; simp [fetchPageAux, resultBody]
  | succ fuel ih =>
    intro attempt sleeps
    rw [fetchPageAux]
    simp only [retryAfterSeconds]
    norm_num
    exact ih (attempt + 1) (sleeps ++ [Sleep.rateWait 5])

/-! ## Claim theorems: Page Fetcher -/

/-- Claim C4 (confirmed): against a target that fails with a network-level
error `N` times and then succeeds, `fetch_page` with `max_retries = N + 1`
returns the page body, having slept the exponential backoff `2 ^ attempt`
before each retry that follows a network failure; with `max_retries = N` it
exhausts its retries and returns the code's exhaustion result (the empty
string, after backoffs for attempts `0 .. N - 2`; no sleep follows the last
attempt because no retry follows it). -/
theorem fetch_retry_bound (N : Nat) (body : String) :
    fetch_page (failNScript N body) (N + 1)
      = Except.ok (body, (List.range N).map (fun j => Sleep.backoff (2 ^ j)))
    ∧ fetch_page (failNScript N body) N
      = Except.ok ("", (List.range (N - 1)).map (fun j => Sleep.backoff (2 ^ j))) := by
  constructor
  · rw [fetch_page, fetchPageAux_failN_success N body N 0 [] (by omega)]
    simp
  · rw [fetch_page, fetchPageAux_failN_exhaust N body N 0 [] (by omega)]
    simp

/-- Claim C5, amended (the claim as stated is refuted by
`fetch_rate_limit_consumes_cx`): a 429 response does make `fetch_page`
sleep the parsed `Retry-After` duration before its next attempt, but that
attempt comes out of the same `max_retries` loop budget used for
network-error retries: after the 429 the loop continues as attempt `1` with
only `mr` of the `mr + 1` iterations left. -/
theorem fetch_rate_limit_wait_then_retry (script : Nat → FetchEvent) (mr : Nat)
    (bdy s : String) (n : Int)
    (h0 : script 0 = FetchEvent.response ⟨429, bdy, some s⟩) (hp : pyInt s = some n) :
    fetch_page script (mr + 1) = fetchPageAux script (mr + 1) 1 mr [Sleep.rateWait n] := by
  rw [fetch_page, fetchPageAux, h0]
  simp [retryAfterSeconds, hp]

/-- Witness for `fetch_rate_limit_wait_then_retry` at `Retry-After: 7`,
`max_retries = 3`. -/
theorem fetch_rate_limit_wait_then_retry_witness :
    (fun _ => FetchEvent.response ⟨429, "", some "7"⟩ : Nat → FetchEvent) 0
        = FetchEvent.response ⟨429, "", some "7"⟩
    ∧ pyInt "7" = some 7
    ∧ fetch_page (fun _ => FetchEvent.response ⟨429, "", some "7"⟩) 3
        = fetchPageAux (fun _ => FetchEvent.response ⟨429, "", some "7"⟩) 3 1 2 [Sleep.rateWait 7] :=
  ⟨rfl, by decide,
    fetch_rate_limit_wait_then_retry (fun _ => FetchEvent.response ⟨429, "", some "7"⟩) 2 "" "7" 7
      rfl (by decide)⟩

/-- Two net failures then success: within the default budget of 3. -/
def cxNetScript : Nat → FetchEvent := fun i =>
  if i < 2 then FetchEvent.clientError else FetchEvent.response ⟨200, "B", none⟩

/-- The same failure pattern preceded by one 429 (`Retry-After: 7`). -/
def cxRateNetScript : Nat → FetchEvent := fun i =>
  if i = 0 then FetchEvent.response ⟨429, "", some "7"⟩
  else if i < 3 then FetchEvent.clientError
  else FetchEvent.response ⟨200, "B", none⟩

/-- Counterexample to claim C5 as stated: with the default
`max_retries = 3`, two network errors followed by a success yield the page
body, but prepending a single 429 (whose wait supposedly consumes no retry
slot) makes the very same network-error pattern exhaust the budget before
reaching the success — the rate-limit attempt did consume one of the
`max_retries` slots. -/
theorem fetch_rate_limit_consumes_cx :
    fetch_page cxNetScript 3 = Except.ok ("B", [Sleep.backoff 1, Sleep.backoff 2])
    ∧ fetch_page cxRateNetScript 3 = Except.ok ("", [Sleep.rateWait 7, Sleep.backoff 2]) :=
  ⟨by decide, by decide⟩

/-- Claim C6, amended (the claim as stated is refuted by
`fetch_retry_after_unparseable_cx`): on a 429 the default of 5 seconds
applies only when the `Retry-After` header is absent
(`headers.get('Retry-After', 5)`); when the header is present but
unparseable, `int(...)` raises a `ValueError` that the
`except aiohttp.ClientError` clause does not catch, so the fetch aborts
with an uncaught exception instead of sleeping the default. -/
theorem fetch_retry_after_default_only_absent (script script2 : Nat → FetchEvent) (mr : Nat)
    (bdy bdy2 s : String)
    (h0 : script 0 = FetchEvent.response ⟨429, bdy, none⟩)
    (h2 : script2 0 = FetchEvent.response ⟨429, bdy2, some s⟩)
    (hs : pyInt s = none) :
    fetch_page script (mr + 1) = fetchPageAux script (mr + 1) 1 mr [Sleep.rateWait 5]
    ∧ fetch_page script2 (mr + 1) = Except.error PyErr.valueError := by
  constructor
  · rw [fetch_page, fetchPageAux, h0]
    simp [retryAfterSeconds]
  · rw [fetch_page, fetchPageAux, h2]
    simp [retryAfterSeconds, hs]

/-- Witness for `fetch_retry_after_default_only_absent`: absent header
sleeps 5; header `"abc"` raises. -/
theorem fetch_retry_after_default_only_absent_witness :
    pyInt "abc" = none
    ∧ fetch_page (fun _ => FetchEvent.response ⟨429, "x", none⟩) 3
        = fetchPageAux (fun _ => FetchEvent.response ⟨429, "x", none⟩) 3 1 2 [Sleep.rateWait 5]
    ∧ fetch_page (fun _ => FetchEvent.response ⟨429, "y", some "abc"⟩) 3
        = Except.error PyErr.valueError :=
  ⟨by decide,
    (fetch_retry_after_default_only_absent (fun _ => FetchEvent.response ⟨429, "x", none⟩)
      (fun _ => FetchEvent.response ⟨429, "y", some "abc"⟩) 2 "x" "y" "abc" rfl rfl (by decide)).1,
    (fetch_retry_after_default_only_absent (fun _ => FetchEvent.response ⟨429, "x", none⟩)
      (fun _ => FetchEvent.response ⟨429, "y", some "abc"⟩) 2 "x" "y" "abc" rfl rfl (by decide)).2⟩

/-- Counterexample to claim C6 as stated: `Retry-After: abc` does not fall
back to the 5-second default — `fetch_page` raises an uncaught
`ValueError`. -/
theorem fetch_retry_after_unparseable_cx :
    pyInt "abc" = none
    ∧ fetch_page (fun _ => FetchEvent.response ⟨429, "", some "abc"⟩) 3
        = Except.error PyErr.valueError :=
  ⟨by decide, by decide⟩

/-- Claim C10 (confirmed): `fetch_page` returns the body on HTTP 200 and
the empty string in every failure case — a non-200/non-429 status,
exhausted retries after repeated network errors, and repeated 429
responses — which is also exactly what a genuine 200 response with an
empty body returns, so the caller cannot tell these apart. -/
theorem fetch_page_failure_empty_string (mr : Nat) (hmr : 0 < mr) (body : String)
    (hdr : Option String) (c : Nat) (hc2 : c ≠ 200) (hc4 : c ≠ 429) :
    resultBody (fetch_page (fun _ => FetchEvent.response ⟨200, body, hdr⟩) mr) = some body
    ∧ resultBody (fetch_page (fun _ => FetchEvent.response ⟨c, body, hdr⟩) mr) = some ""
    ∧ resultBody (fetch_page (fun _ => FetchEvent.clientError) mr) = some ""
    ∧ resultBody (fetch_page (fun _ => FetchEvent.response ⟨429, body, none⟩) mr) = some ""
    ∧ resultBody (fetch_page (fun _ => FetchEvent.response ⟨200, "", hdr⟩) mr) = some "" := by
  obtain ⟨mr', rfl⟩ : ∃ m, mr = m + 1 := ⟨mr - 1, by omega⟩
  refine ⟨?_, ?_, ?_, ?_, ?_⟩
  · rw [fetch_page, fetchPageAux]
    simp [resultBody]
  · rw [fetch_page, fetchPageAux]
    simp [resultBody, hc2, hc4]
  · exact fetchPageAux_clientError_body (mr' + 1) (mr' + 1) 0 []
  · exact fetchPageAux_rateLimited_body (mr' + 1) body (mr' + 1) 0 []
  · rw [fetch_page, fetchPageAux]
    simp [resultBody]

/-- Witness for `fetch_page_failure_empty_string` at the code's
`max_retries = 3` with a 404 status. -/
theorem fetch_page_failure_empty_string_witness :
    0 < 3 ∧ (404 : Nat) ≠ 200 ∧ (404 : Nat) ≠ 429
    ∧ resultBody (fetch_page (fun _ => FetchEvent.response ⟨200, "B", none⟩) 3) = some "B"
    ∧ resultBody (fetch_page (fun _ => FetchEvent.response ⟨404, "B", none⟩) 3) = some ""
    ∧ resultBody (fetch_page (fun _ => FetchEvent.clientError) 3) = some ""
    ∧ resultBody (fetch_page (fun _ => FetchEvent.response ⟨429, "B", none⟩) 3) = some "" :=
  ⟨by decide, by decide, by decide,
    (fetch_page_failure_empty_string 3 (by decide) "B" none 404 (by decide) (by decide)).1,
    (fetch_page_failure_empty_string 3 (by decide) "B" none 404 (by decide) (by decide)).2.1,
    (fetch_page_failure_empty_string 3 (by decide) "B" none 404 (by decide) (by decide)).2.2.1,
    (fetch_page_failure_empty_string 3 (by decide) "B" none 404 (by decide) (by decide)).2.2.2.1⟩


/-! ## Store lemmas -/


lemma save_articles_nil (db : List Row) (ts : String) : save_articles db [] ts = db := rfl

lemma save_articles_cons (db : List Row) (a : Article) (rest : List Article) (ts : String) :
    save_articles db (a :: rest) ts = save_articles (insertOrIgnore db a ts) rest ts := rfl

lemma insertOrIgnore_eq_append (db : List Row) (a : Article) (ts : String) :
    ∃ ext, insertOrIgnore db a ts = db ++ ext := by
  unfold insertOrIgnore
  split
  · exact ⟨[], by simp⟩
  · exact ⟨_, rfl⟩

lemma save_articles_eq_append :
    ∀ (arts : List Article) (db : List Row) (ts : String),
    ∃ ext, save_articles db arts ts = db ++ ext := by
  intro arts
  induction arts with
  | nil => intro db ts; exact ⟨[], by simp [save_articles_nil]⟩
  | cons a rest ih =>
    intro db ts
    obtain ⟨e1, h1⟩ := insertOrIgnore_eq_append db a ts
    obtain ⟨e2, h2⟩ := ih (insertOrIgnore db a ts) ts
    exact ⟨e1 ++ e2, by rw [save_articles_cons, h2, h1, List.append_assoc]⟩

lemma urlExists_save_of (db : List Row) (arts : List Article) (ts u : String)
    (h : urlExists db u = true) : urlExists (save_articles db arts ts) u = true := by
  obtain ⟨e, he⟩ := save_articles_eq_append arts db ts
  rw [he]
  unfold urlExists at h ⊢
  rw [List.any_append, h, Bool.true_or]

lemma urlExists_insertOrIgnore_self (db : List Row) (a : Article) (ts : String) :
    urlExists (insertOrIgnore db a ts) a.url = true := by
  unfold insertOrIgnore
  split
  · assumption
  · unfold urlExists
    rw [List.any_append]
    simp

lemma save_articles_present (a : Article) :
    ∀ (arts : List Article) (db : List Row) (ts : String), a ∈ arts →
    urlExists (save_articles db arts ts) a.url = true := by
  intro arts
  induction arts with
  | nil => intro db ts h; cases h
  | cons b rest ih =>
    intro db ts h
    rw [save_articles_cons]
    rcases List.mem_cons.mp h with hab | hmem
    · subst hab
      exact urlExists_save_of _ rest ts _ (urlExists_insertOrIgnore_self db a ts)
    · exact ih _ ts hmem

lemma insertOrIgnore_noop (db : List Row) (a : Article) (ts : String)
    (h : urlExists db a.url = true) : insertOrIgnore db a ts = db := by
  unfold insertOrIgnore
  rw [if_pos h]

lemma save_articles_noop :
    ∀ (arts : List Article) (db : List Row) (ts : String),
    (∀ a ∈ arts, urlExists db a.url = true) → save_articles db arts ts = db := by
  intro arts
  induction arts with
  | nil => intro db ts _; rfl
  | cons b rest ih =>
    intro db ts h
    rw [save_articles_cons, insertOrIgnore_noop db b ts (h b (List.mem_cons_self b rest))]
    exact ih db ts (fun a ha => h a (List.mem_cons_of_mem b ha))

lemma not_mem_url_of_urlExists_false (db : List Row) (u : String)
    (h : urlExists db u = false) : u ∉ db.map Row.url := by
  intro hmem
  obtain ⟨r, hr, hru⟩ := List.mem_map.mp hmem
  have : urlExists db u = true := by
    unfold urlExists
    rw [List.any_eq_true]
    exact ⟨r, hr, by simp [hru]⟩
  rw [h] at this
  cases this

lemma insertOrIgnore_nodup (db : List Row) (a : Article) (ts : String)
    (h : (db.map Row.url).Nodup) : ((insertOrIgnore db a ts).map Row.url).Nodup := by
  unfold insertOrIgnore
  split
  · exact h
  · rename_i hnot
    rw [List.map_append, List.nodup_append]
    refine ⟨h, List.nodup_singleton _, ?_⟩
    have hfalse : urlExists db a.url = false := by
      simpa using hnot
    have := not_mem_url_of_urlExists_false db a.url hfalse
    simpa [List.disjoint_singleton] using this

lemma save_articles_nodup :
    ∀ (arts : List Article) (db : List Row) (ts : String),
    (db.map Row.url).Nodup → ((save_articles db arts ts).map Row.url).Nodup := by
  intro arts
  induction arts with
  | nil => intro db ts h; exact h
  | cons b rest ih =>
    intro db ts h
    rw [save_articles_cons]
    exact ih _ ts (insertOrIgnore_nodup db b ts h)



/-! ## Driver lemmas -/


section DriverLemmas

variable (f : Nat → String) (p : String → List Article) (c : Nat → String)

lemma scrapeGo_nil (t : CrawlTrace) : scrapeGo f p c [] t = t := rfl

lemma scrapeGo_cons (q : Nat) (rest : List Nat) (t : CrawlTrace) :
    scrapeGo f p c (q :: rest) t = scrapeGo f p c rest (scrapeStep f p c t q) := rfl

lemma scrapeStep_fetched (t : CrawlTrace) (page : Nat) :
    (scrapeStep f p c t page).fetchedPages = t.fetchedPages ++ [page] := by
  unfold scrapeStep
  split
  · rfl
  · split <;> rfl

lemma scrapeStep_parsed (t : CrawlTrace) (page : Nat) :
    (scrapeStep f p c t page).parsedPages
      = t.parsedPages ++ (if f page = "" then [] else [page]) := by
  unfold scrapeStep
  split
  · simp_all
  · split <;> simp_all

lemma scrapeStep_stored (t : CrawlTrace) (page : Nat) :
    (scrapeStep f p c t page).storedPages
      = t.storedPages
        ++ (if f page = "" then [] else if (p (f page)).isEmpty then [] else [page]) := by
  unfold scrapeStep
  split
  · simp_all
  · split <;> simp_all

lemma scrapeStep_db (t : CrawlTrace) (page : Nat) :
    (scrapeStep f p c t page).db = t.db
    ∨ (scrapeStep f p c t page).db = save_articles t.db (p (f page)) (c page) := by
  unfold scrapeStep
  split
  · exact Or.inl rfl
  · split
    · exact Or.inl rfl
    · exact Or.inr rfl

lemma scrapeGo_fetched :
    ∀ (pages : List Nat) (t : CrawlTrace),
    (scrapeGo f p c pages t).fetchedPages = t.fetchedPages ++ pages := by
  intro pages
  induction pages with
  | nil => intro t; simp [scrapeGo_nil]
  | cons q rest ih =>
    intro t
    rw [scrapeGo_cons, ih, scrapeStep_fetched]
    simp

lemma scrapeGo_parsed :
    ∀ (pages : List Nat) (t : CrawlTrace),
    (scrapeGo f p c pages t).parsedPages
      = t.parsedPages ++ pages.filter (fun q => !(f q == "")) := by
  intro pages
  induction pages with
  | nil => intro t; simp [scrapeGo_nil]
  | cons q rest ih =>
    intro t
    rw [scrapeGo_cons, ih, scrapeStep_parsed, List.filter_cons]
    by_cases h : f q = ""
    · simp [h]
    · simp [h]

lemma scrapeGo_stored :
    ∀ (pages : List Nat) (t : CrawlTrace),
    (scrapeGo f p c pages t).storedPages
      = t.storedPages
        ++ pages.filter (fun q => !(f q == "") && !(p (f q)).isEmpty) := by
  intro pages
  induction pages with
  | nil => intro t; simp [scrapeGo_nil]
  | cons q rest ih =>
    intro t
    rw [scrapeGo_cons, ih, scrapeStep_stored, List.filter_cons]
    by_cases h : f q = ""
    · simp [h]
    · by_cases h2 : (p (f q)).isEmpty
      · simp [h, h2]
      · simp [h, h2]

lemma scrapeGo_db_mono :
    ∀ (pages : List Nat) (t : CrawlTrace) (u : String),
    urlExists t.db u = true → urlExists (scrapeGo f p c pages t).db u = true := by
  intro pages
  induction pages with
  | nil => intro t u h; exact h
  | cons q rest ih =>
    intro t u h
    rw [scrapeGo_cons]
    refine ih _ u ?_
    rcases scrapeStep_db f p c t q with hdb | hdb
    · rw [hdb]; exact h
    · rw [hdb]; exact urlExists_save_of _ _ _ _ h

lemma scrapeGo_presence :
    ∀ (pages : List Nat) (t : CrawlTrace) (pg : Nat) (a : Article),
    pg ∈ pages → f pg ≠ "" → a ∈ p (f pg) →
    urlExists (scrapeGo f p c pages t).db a.url = true := by
  intro pages
  induction pages with
  | nil => intro t pg a h; cases h
  | cons q rest ih =>
    intro t pg a hmem hne ha
    rw [scrapeGo_cons]
    rcases List.mem_cons.mp hmem with hq | hrest
    · subst hq
      refine scrapeGo_db_mono f p c rest _ a.url ?_
      have hstep : (scrapeStep f p c t pg).db = save_articles t.db (p (f pg)) (c pg) := by
        unfold scrapeStep
        rw [if_neg hne]
        have : (p (f pg)).isEmpty = false := by
          cases hpe : (p (f pg)).isEmpty
          · rfl
          · exact absurd (List.isEmpty_iff.mp hpe ▸ ha) (List.not_mem_nil a)
        rw [this]
        simp
      rw [hstep]
      exact save_articles_present a _ t.db (c pg) ha
    · exact ih _ pg a hrest hne ha

lemma scrapeStep_db_noop (t : CrawlTrace) (page : Nat)
    (h : f page ≠ "" → ∀ a ∈ p (f page), urlExists t.db a.url = true) :
    (scrapeStep f p c t page).db = t.db := by
  unfold scrapeStep
  split
  · rfl
  · split
    · rfl
    · rename_i hne _
      exact save_articles_noop _ t.db (c page) (h hne)

lemma scrapeGo_db_noop :
    ∀ (pages : List Nat) (t : CrawlTrace),
    (∀ pg ∈ pages, f pg ≠ "" → ∀ a ∈ p (f pg), urlExists t.db a.url = true) →
    (scrapeGo f p c pages t).db = t.db := by
  intro pages
  induction pages with
  | nil => intro t _; rfl
  | cons q rest ih =>
    intro t h
    rw [scrapeGo_cons]
    have hq : (scrapeStep f p c t q).db = t.db :=
      scrapeStep_db_noop f p c t q (h q (List.mem_cons_self q rest))
    have := ih (scrapeStep f p c t q) ?_
    · rw [this, hq]
    · intro pg hpg hne a ha
      rw [hq]
      exact h pg (List.mem_cons_of_mem q hpg) hne a ha

lemma scrapeGo_nodup :
    ∀ (pages : List Nat) (t : CrawlTrace),
    (t.db.map Row.url).Nodup → ((scrapeGo f p c pages t).db.map Row.url).Nodup := by
  intro pages
  induction pages with
  | nil => intro t h; exact h
  | cons q rest ih =>
    intro t h
    rw [scrapeGo_cons]
    refine ih _ ?_
    rcases scrapeStep_db f p c t q with hdb | hdb
    · rw [hdb]; exact h
    · rw [hdb]; exact save_articles_nodup _ t.db (c q) h

lemma scrapeGo_db_eq_append :
    ∀ (pages : List Nat) (t : CrawlTrace),
    ∃ ext, (scrapeGo f p c pages t).db = t.db ++ ext := by
  intro pages
  induction pages with
  | nil => intro t; exact ⟨[], by simp [scrapeGo_nil]⟩
  | cons q rest ih =>
    intro t
    rw [scrapeGo_cons]
    obtain ⟨e2, h2⟩ := ih (scrapeStep f p c t q)
    rcases scrapeStep_db f p c t q with hdb | hdb
    · exact ⟨e2, by rw [h2, hdb]⟩
    · obtain ⟨e1, h1⟩ := save_articles_eq_append (p (f q)) t.db (c q)
      exact ⟨e1 ++ e2, by rw [h2, hdb, h1, List.append_assoc]⟩

end DriverLemmas



/-! ## Claim theorems: Store and Pagination Driver -/


/-- Claim C1 (confirmed): crawls against the same store are idempotent.
Starting from a store with no duplicate `url`s, a crawl never creates a
duplicate `url` (each distinct `url` is inserted at most once), and
re-running the same crawl (same per-page fetch results and parses, any
clock) over the resulting store leaves the table exactly as it was, so the
second run's total inserted count is `0`. -/
theorem crawl_idempotent (f : Nat → String) (p : String → List Article)
    (c1 c2 : Nat → String) (mp : Nat) (db0 : List Row)
    (h0 : (db0.map Row.url).Nodup) :
    (((scrape f p c1 mp db0).db).map Row.url).Nodup
    ∧ (scrape f p c2 mp (scrape f p c1 mp db0).db).db = (scrape f p c1 mp db0).db
    ∧ (scrape f p c2 mp (scrape f p c1 mp db0).db).db.length
        - (scrape f p c1 mp db0).db.length = 0 := by
  have hnodup : (((scrape f p c1 mp db0).db).map Row.url).Nodup := by
    unfold scrape
    exact scrapeGo_nodup f p c1 (List.range' 1 mp) _ h0
  have hnoop : (scrape f p c2 mp (scrape f p c1 mp db0).db).db = (scrape f p c1 mp db0).db := by
    unfold scrape
    apply scrapeGo_db_noop
    intro pg hpg hne a ha
    exact scrapeGo_presence f p c1 (List.range' 1 mp) _ pg a hpg hne ha
  exact ⟨hnodup, hnoop, by rw [hnoop]; omega⟩

/-- Witness for `crawl_idempotent`: a 2-page crawl from an empty store. -/
theorem crawl_idempotent_witness :
    (([] : List Row).map Row.url).Nodup
    ∧ ((((scrape (fun _ => "H") (fun _ => [⟨"T", "u", "", ""⟩]) (fun _ => "t1") 2 []).db).map
        Row.url).Nodup
    ∧ (scrape (fun _ => "H") (fun _ => [⟨"T", "u", "", ""⟩]) (fun _ => "t2") 2
        (scrape (fun _ => "H") (fun _ => [⟨"T", "u", "", ""⟩]) (fun _ => "t1") 2 []).db).db
        = (scrape (fun _ => "H") (fun _ => [⟨"T", "u", "", ""⟩]) (fun _ => "t1") 2 []).db
    ∧ (scrape (fun _ => "H") (fun _ => [⟨"T", "u", "", ""⟩]) (fun _ => "t2") 2
        (scrape (fun _ => "H") (fun _ => [⟨"T", "u", "", ""⟩]) (fun _ => "t1") 2 []).db).db.length
        - (scrape (fun _ => "H") (fun _ => [⟨"T", "u", "", ""⟩]) (fun _ => "t1") 2 []).db.length
        = 0) :=
  ⟨by decide,
    crawl_idempotent (fun _ => "H") (fun _ => [⟨"T", "u", "", ""⟩]) (fun _ => "t1")
      (fun _ => "t2") 2 [] (by decide)⟩

/-- Claim C2, amended (the claim as stated is refuted by
`scrape_fetch_failure_continues_cx`): when the fetch of a page fails —
which reaches the driver as the empty string — `scrape` logs and *skips
that page only* (`continue`): the page is neither parsed nor stored, but
every page `1 .. max_pages` is still fetched; the crawl does not stop. -/
theorem scrape_fetch_failure_skips_page (f : Nat → String) (p : String → List Article)
    (c : Nat → String) (mp : Nat) (db0 : List Row) (pg : Nat) (hf : f pg = "") :
    (scrape f p c mp db0).fetchedPages = List.range' 1 mp
    ∧ pg ∉ (scrape f p c mp db0).parsedPages
    ∧ pg ∉ (scrape f p c mp db0).storedPages := by
  unfold scrape
  refine ⟨?_, ?_, ?_⟩
  · rw [scrapeGo_fetched]
    rfl
  · rw [scrapeGo_parsed]
    intro hmem
    have := (List.mem_filter.mp hmem).2
    simp [hf] at this
  · rw [scrapeGo_stored]
    intro hmem
    have := (List.mem_filter.mp hmem).2
    simp [hf] at this

/-- Witness for `scrape_fetch_failure_skips_page`: page 1 fails in a
2-page crawl. -/
theorem scrape_fetch_failure_skips_page_witness :
    (fun q => if q = 1 then "" else "H" : Nat → String) 1 = ""
    ∧ ((scrape (fun q => if q = 1 then "" else "H") (fun _ => []) (fun _ => "t") 2 []).fetchedPages
        = List.range' 1 2
    ∧ 1 ∉ (scrape (fun q => if q = 1 then "" else "H") (fun _ => []) (fun _ => "t") 2 []).parsedPages
    ∧ 1 ∉ (scrape (fun q => if q = 1 then "" else "H") (fun _ => []) (fun _ => "t") 2 []).storedPages) :=
  ⟨rfl, scrape_fetch_failure_skips_page (fun q => if q = 1 then "" else "H") (fun _ => [])
    (fun _ => "t") 2 [] 1 rfl⟩

/-- Page 1's fetch fails (the empty string an exhausted `fetch_page`
returns); page 2 serves `"H2"`. -/
def cxFetchC2 : Nat → String := fun q => if q = 1 then "" else "H2"

/-- Page `"H2"` parses to one article. -/
def cxParseC2 : String → List Article := fun s => if s = "H2" then [⟨"T2", "u2", "", ""⟩] else []

/-- Counterexample to claim C2 as stated: page 1's fetch ends in
exhaustion (`fetch_page` on repeated network errors returns `""`), yet the
crawl does not stop there — page 2 is still fetched, parsed, and its
record stored. -/
theorem scrape_fetch_failure_continues_cx :
    resultBody (fetch_page (fun _ => FetchEvent.clientError) 3) = some ""
    ∧ cxFetchC2 1 = ""
    ∧ (scrape cxFetchC2 cxParseC2 (fun _ => "t") 2 []).fetchedPages = [1, 2]
    ∧ (scrape cxFetchC2 cxParseC2 (fun _ => "t") 2 []).storedPages = [2]
    ∧ (scrape cxFetchC2 cxParseC2 (fun _ => "t") 2 []).db = [⟨"T2", "u2", "", "", "t"⟩] :=
  ⟨by decide, by decide, by decide, by decide, by decide⟩

/-- Claim C3, amended (the claim as stated is refuted by
`scrape_empty_page_continues_cx`): a page whose extraction yields zero
records is simply not stored (`if articles:` fails); it does not stop the
crawl — every page `1 .. max_pages` is still fetched. -/
theorem scrape_empty_page_not_stored (f : Nat → String) (p : String → List Article)
    (c : Nat → String) (mp : Nat) (db0 : List Row) (pg : Nat) (hp : p (f pg) = []) :
    (scrape f p c mp db0).fetchedPages = List.range' 1 mp
    ∧ pg ∉ (scrape f p c mp db0).storedPages := by
  unfold scrape
  refine ⟨?_, ?_⟩
  · rw [scrapeGo_fetched]
    rfl
  · rw [scrapeGo_stored]
    intro hmem
    have := (List.mem_filter.mp hmem).2
    simp [hp] at this

/-- Witness for `scrape_empty_page_not_stored`: every page empty in a
3-page crawl. -/
theorem scrape_empty_page_not_stored_witness :
    (fun _ => ([] : List Article) : String → List Article) ((fun _ => "H" : Nat → String) 1) = []
    ∧ ((scrape (fun _ => "H") (fun _ => []) (fun _ => "t") 3 []).fetchedPages = List.range' 1 3
    ∧ 1 ∉ (scrape (fun _ => "H") (fun _ => []) (fun _ => "t") 3 []).storedPages) :=
  ⟨rfl, scrape_empty_page_not_stored (fun _ => "H") (fun _ => []) (fun _ => "t") 3 [] 1 rfl⟩

/-- Every page fetches successfully with distinct HTML. -/
def cxFetchC3 : Nat → String := fun q => "H" ++ toString q

/-- Pages 1, 2 and 4 have one record each; pages 3 and 5 are empty. -/
def cxParseC3 : String → List Article := fun s =>
  if s = "H1" then [⟨"T1", "u1", "", ""⟩]
  else if s = "H2" then [⟨"T2", "u2", "", ""⟩]
  else if s = "H4" then [⟨"T4", "u4", "", ""⟩]
  else []

/-- Counterexample to claim C3 as stated: with pages 1-2 non-empty, page 3
empty and `max_pages = 5`, the crawl does not stop at page 3: it processes
pages 1-5 (not "exactly pages 1 through 3") and stores page 4's record as
well (not "only the records from pages 1 and 2"). -/
theorem scrape_empty_page_continues_cx :
    cxParseC3 (cxFetchC3 3) = []
    ∧ (scrape cxFetchC3 cxParseC3 (fun _ => "t") 5 []).fetchedPages = [1, 2, 3, 4, 5]
    ∧ (scrape cxFetchC3 cxParseC3 (fun _ => "t") 5 []).storedPages = [1, 2, 4]
    ∧ (scrape cxFetchC3 cxParseC3 (fun _ => "t") 5 []).db
        = [⟨"T1", "u1", "", "", "t"⟩, ⟨"T2", "u2", "", "", "t"⟩, ⟨"T4", "u4", "", "", "t"⟩] :=
  ⟨by decide, by decide, by decide, by decide⟩

/-- Claim C8 (confirmed): inserting a record whose `url` already exists is
a no-op for that record (`INSERT OR IGNORE`), and any later batch of
inserts — or any later crawl over the same store — leaves every
pre-existing row in place unchanged in every field, `scraped_at`
included (the original prefix of the table is preserved verbatim). -/
theorem insert_duplicate_preserves_row (db : List Row) (a : Article) (ts : String)
    (h : urlExists db a.url = true) :
    insertOrIgnore db a ts = db
    ∧ (∀ (arts : List Article) (ts2 : String), (save_articles db arts ts2).take db.length = db)
    ∧ (∀ (f : Nat → String) (p : String → List Article) (c : Nat → String) (mp : Nat),
        ((scrape f p c mp db).db).take db.length = db) := by
  refine ⟨insertOrIgnore_noop db a ts h, ?_, ?_⟩
  · intro arts ts2
    obtain ⟨e, he⟩ := save_articles_eq_append arts db ts2
    rw [he]
    exact List.take_left db e
  · intro f p c mp
    unfold scrape
    obtain ⟨e, he⟩ :=
      scrapeGo_db_eq_append f p c (List.range' 1 mp)
        { fetchedPages := [], parsedPages := [], storedPages := [], db := db }
    rw [he]
    exact List.take_left db e

/-- Witness for `insert_duplicate_preserves_row`: a re-observed record
with a fresh timestamp leaves the stored row's original `scraped_at`. -/
theorem insert_duplicate_preserves_row_witness :
    urlExists [⟨"T", "u", "d", "e", "t0"⟩] "u" = true
    ∧ insertOrIgnore [⟨"T", "u", "d", "e", "t0"⟩] ⟨"T2", "u", "", ""⟩ "t1"
        = [⟨"T", "u", "d", "e", "t0"⟩]
    ∧ (save_articles [⟨"T", "u", "d", "e", "t0"⟩] [⟨"T2", "u", "", ""⟩, ⟨"T3", "v", "", ""⟩]
        "t1").take 1 = [⟨"T", "u", "d", "e", "t0"⟩] :=
  ⟨by decide,
    (insert_duplicate_preserves_row [⟨"T", "u", "d", "e", "t0"⟩] ⟨"T2", "u", "", ""⟩ "t1"
      (by decide)).1,
    (insert_duplicate_preserves_row [⟨"T", "u", "d", "e", "t0"⟩] ⟨"T2", "u", "", ""⟩ "t1"
      (by decide)).2.1 [⟨"T2", "u", "", ""⟩, ⟨"T3", "v", "", ""⟩] "t1"⟩



/-! ## Claim theorems: Record Extractor -/


lemma parseBlock_some_fields (base : String) (te : Option TitleElem) (de : Option DateElem)
    (ee : Option String) (a : Article)
    (h : parseBlock base ⟨te, de, ee⟩ = some a) : a.title ≠ "" ∧ a.url ≠ "" := by
  rcases de with _ | ⟨dt⟩
  · simp only [parseBlock] at h
    split at h
    · rename_i hcond
      cases h
      exact hcond
    · exact Option.noConfusion h
  · rcases dt with _ | date
    · simp [parseBlock] at h
    · simp only [parseBlock] at h
      split at h
      · rename_i hcond
        cases h
        exact hcond
      · exact Option.noConfusion h

lemma parseBlock_some_url (base : String) (te : Option TitleElem) (de : Option DateElem)
    (ee : Option String) (a : Article)
    (h : parseBlock base ⟨te, de, ee⟩ = some a) :
    ∃ t, te = some t ∧ ∃ hr, t.href = some hr ∧ hr ≠ "" ∧ a.url = urljoin base hr := by
  rcases te with _ | ⟨ttext, thref⟩
  · rcases de with _ | ⟨dt⟩
    · simp [parseBlock] at h
    · rcases dt with _ | date
      · simp [parseBlock] at h
      · simp [parseBlock] at h
  · rcases thref with _ | hr
    · rcases de with _ | ⟨dt⟩
      · simp [parseBlock] at h
      · rcases dt with _ | date
        · simp [parseBlock] at h
        · simp [parseBlock] at h
    · by_cases hhr : hr = ""
      · subst hhr
        rcases de with _ | ⟨dt⟩
        · simp [parseBlock] at h
        · rcases dt with _ | date
          · simp [parseBlock] at h
          · simp [parseBlock] at h
      · refine ⟨⟨ttext, some hr⟩, rfl, hr, rfl, hhr, ?_⟩
        rcases de with _ | ⟨dt⟩
        · simp only [parseBlock, if_neg hhr] at h
          split at h
          · cases h
            rfl
          · exact Option.noConfusion h
        · rcases dt with _ | date
          · simp [parseBlock] at h
          · simp only [parseBlock, if_neg hhr] at h
            split at h
            · cases h
              rfl
            · exact Option.noConfusion h



/-- The constructor's default `base_url` (line 23). -/
def defaultBaseUrl : String := "https://techcrunch.com/category/startups/"

/-- Example page for the partial-page resilience test: 5 blocks, the
third missing its title element. -/
def exBlock1 : Block := ⟨some ⟨"T1", some "https://e.com/a1"⟩, none, some "E1"⟩
def exBlock2 : Block := ⟨some ⟨"T2", some "https://e.com/a2"⟩, some ⟨some "2024-01-01"⟩, none⟩
def exBlock3 : Block := ⟨none, none, some "E3"⟩
def exBlock4 : Block := ⟨some ⟨"T4", some "https://e.com/a4"⟩, none, none⟩
def exBlock5 : Block := ⟨some ⟨"T5", some "https://e.com/a5"⟩, none, none⟩

/-- Claim C7 (confirmed): every record `parse_articles` returns has a
non-empty title and a non-empty url (`if title and url`), and a block
missing a required field is skipped without aborting the rest of the page:
on a page of 5 blocks whose third lacks a title, exactly the 4 well-formed
records come back, in order, without the malformed one. -/
theorem parse_articles_skips_malformed :
    (∀ (base : String) (blocks : List Block) (a : Article),
      a ∈ parse_articles base blocks → a.title ≠ "" ∧ a.url ≠ "")
    ∧ parse_articles defaultBaseUrl [exBlock1, exBlock2, exBlock3, exBlock4, exBlock5]
        = [⟨"T1", "https://e.com/a1", "", "E1"⟩,
           ⟨"T2", "https://e.com/a2", "2024-01-01", ""⟩,
           ⟨"T4", "https://e.com/a4", "", ""⟩,
           ⟨"T5", "https://e.com/a5", "", ""⟩] := by
  constructor
  · intro base blocks a ha
    obtain ⟨b, _, hpb⟩ := List.mem_filterMap.mp ha
    rcases b with ⟨te, de, ee⟩
    exact parseBlock_some_fields base te de ee a hpb
  · decide

/-- Witness for `parse_articles_skips_malformed`: the first record of the
5-block page is well-formed. -/
theorem parse_articles_skips_malformed_witness :
    (⟨"T1", "https://e.com/a1", "", "E1"⟩ : Article)
        ∈ parse_articles defaultBaseUrl [exBlock1, exBlock2, exBlock3, exBlock4, exBlock5]
    ∧ ((⟨"T1", "https://e.com/a1", "", "E1"⟩ : Article).title ≠ ""
        ∧ (⟨"T1", "https://e.com/a1", "", "E1"⟩ : Article).url ≠ "") :=
  ⟨by decide,
    parse_articles_skips_malformed.1 defaultBaseUrl
      [exBlock1, exBlock2, exBlock3, exBlock4, exBlock5]
      ⟨"T1", "https://e.com/a1", "", "E1"⟩ (by decide)⟩

/-- Claim C9, amended (the claim as stated is refuted by
`parse_resolves_base_not_page_cx`): every record's `url` is produced by
resolving the block's (non-empty) `href` against the *configured*
`self.base_url` — the `urljoin` base is the scraper's base URL, not the
URL of the page being parsed (`parse_articles` is never given the page
URL). -/
theorem parse_url_uses_base_url (base : String) (blocks : List Block) (a : Article)
    (ha : a ∈ parse_articles base blocks) :
    ∃ b ∈ blocks, ∃ t, b.titleElem = some t
      ∧ ∃ hr, t.href = some hr ∧ hr ≠ "" ∧ a.url = urljoin base hr := by
  obtain ⟨b, hb, hpb⟩ := List.mem_filterMap.mp ha
  refine ⟨b, hb, ?_⟩
  rcases b with ⟨te, de, ee⟩
  exact parseBlock_some_url base te de ee a hpb

/-- A block whose link is the relative reference `x.html`. -/
def relBlock : Block := ⟨some ⟨"T", some "x.html"⟩, none, none⟩

/-- Counterexample to claim C9 as stated: for a relative `href` in a block
of page 2 (whose URL is `base_url ++ "page/2/"`), the code yields
`urljoin base_url "x.html"`, which differs from the
`urljoin page_url "x.html"` the claim requires. -/
theorem parse_resolves_base_not_page_cx :
    parse_articles defaultBaseUrl [relBlock]
      = [⟨"T", "https://techcrunch.com/category/startups/x.html", "", ""⟩]
    ∧ pageUrl defaultBaseUrl 2 = "https://techcrunch.com/category/startups/page/2/"
    ∧ urljoin (pageUrl defaultBaseUrl 2) "x.html"
        = "https://techcrunch.com/category/startups/page/2/x.html"
    ∧ (⟨"T", "https://techcrunch.com/category/startups/x.html", "", ""⟩ : Article).url
        ≠ urljoin (pageUrl defaultBaseUrl 2) "x.html" :=
  ⟨by decide, by decide, by decide, by decide⟩

/-- Witness for `parse_url_uses_base_url` on a relative `href`. -/
theorem parse_url_uses_base_url_witness :
    (⟨"T", "https://techcrunch.com/category/startups/x.html", "", ""⟩ : Article)
        ∈ parse_articles defaultBaseUrl [relBlock]
    ∧ ∃ b ∈ [relBlock], ∃ t, b.titleElem = some t
        ∧ ∃ hr, t.href = some hr ∧ hr ≠ ""
        ∧ (⟨"T", "https://techcrunch.com/category/startups/x.html", "", ""⟩ : Article).url
            = urljoin defaultBaseUrl hr :=
  ⟨by decide,
    parse_url_uses_base_url defaultBaseUrl [relBlock]
      ⟨"T", "https://techcrunch.com/category/startups/x.html", "", ""⟩ (by decide)⟩

end TechCrunch
